import Mathlib

/-!
Verification of `mongotransf.py`: a script that receives two Mongo-URI-defined
databases, shells out to `mongodump` on the origin and `mongorestore` on the
destination, running the two child processes strictly in sequence.

The embedding below translates `main(origin, destination, collection=None)`
and the three module-level command templates.  The third-party URI parser
(`pymongo.uri_parser.parse_uri`) and the operating system (current working
directory, `os.path.exists`, child-process exit codes) are abstracted into an
environment `Env`; everything the script itself does is translated directly
from the source.
-/

namespace Mongotransf

/-- Python `str.startswith`, computed on the character data of the strings. -/
def startswith (s p : String) : Bool := p.data.isPrefixOf s.data

/-- Python `str.endswith`, computed on the character data of the strings. -/
def endswith (s p : String) : Bool := p.data.isSuffixOf s.data

/-- Modelled from the spec: the decomposition of a connection URI produced by
the external parser (`pymongo.uri_parser.parse_uri`, a dependency, not part of
this repository): a node list of host/port pairs, optional credentials and an
optional database name. -/
structure ParsedURI where
  nodelist : List (String × Nat)
  username : Option String
  password : Option String
  database : Option String
deriving DecidableEq

/-- Modelled from the spec: the outcome of the external URI parser on one
string — either a decomposed URI, or the `InvalidURI` failure the source
catches at lines 40–44. -/
inductive ParseResult where
  | ok (uri : ParsedURI)
  | invalidURI
deriving DecidableEq

/-- The terminal errors `main` can raise.  In the source each is a bare
`Exception`; the spec names the first four `InvalidInputError` (line 37),
`InvalidURIError` (line 44), `PathCollisionError` (line 52) and
`UnsupportedTopologyError` (line 56).  `typeErrorDumpFolder` is the Python
`TypeError` raised at line 47 by `"dump_" + origin['database']` when the
parsed origin database is `None`. -/
inductive MainError where
  | invalidInput
  | invalidURIError
  | pathCollision (path : String)
  | unsupportedTopology
  | typeErrorDumpFolder
deriving DecidableEq

/-- Observable events of a run: a line printed to stdout, a child process
launched (`subprocess.Popen`), or a child process waited on until it
terminated with an exit code (`.wait()`). -/
inductive Event where
  | print (line : String)
  | launch (cmd : String)
  | exited (cmd : String) (code : Int)
deriving DecidableEq

deriving instance DecidableEq for Except

/-- The ambient environment `main` reads: the external URI parser, the current
working directory (`os.getcwd()`), the filesystem (`os.path.exists`) and the
exit code each launched command's child process terminates with. -/
structure Env where
  parse : String → ParseResult
  cwd : String
  pathExists : String → Bool
  spawnExit : String → Int

/-- `os.path.join(a, b)` with POSIX semantics for one component: `b` absolute
replaces `a`; otherwise a separator is inserted unless `a` is empty or already
ends with one. -/
def pathJoin (a b : String) : String :=
  if startswith b "/" then b
  else if a.data.isEmpty || endswith a "/" then a ++ b
  else a ++ "/" ++ b

/-- `MONGODUMP_TEMPLATE` (line 19) instantiated:
`"mongodump -h {host} -u {user} -p {password} -d {db} -o {output}/"`. -/
def MONGODUMP_TEMPLATE (host user password db output : String) : String :=
  "mongodump -h " ++ host ++ " -u " ++ user ++ " -p " ++ password ++ " -d " ++ db
    ++ " -o " ++ output ++ "/"

/-- `MONGORESTORE_TEMPLATE` (line 22) instantiated:
`"mongorestore -h {host} -d {destination_db} -u {user} -p {password} {folder}/{origin_db}"`. -/
def MONGORESTORE_TEMPLATE (host destination_db user password folder origin_db : String) :
    String :=
  "mongorestore -h " ++ host ++ " -d " ++ destination_db ++ " -u " ++ user ++ " -p "
    ++ password ++ " " ++ folder ++ "/" ++ origin_db

/-- `HOST_TEMPLATE` (line 25) instantiated: `"{host}:{port}"`. -/
def HOST_TEMPLATE (host port : String) : String := host ++ ":" ++ port

/-- Python truthiness of the `collection` argument (`if collection:`): `None`
and the empty string are falsy, every other string is truthy. -/
def truthy : Option String → Bool
  | none => false
  | some s => !s.isEmpty

/-- Python `str.format` rendering of a possibly-`None` URI field (`None`
renders as the string `"None"`). -/
def fmtOpt : Option String → String
  | none => "None"
  | some s => s

/-- The `mongodump` command string assembled at lines 59–71 and (when a
collection is given) extended at line 101. -/
def dumpCommand (env : Env) (ohost : String) (oport : Nat)
    (ouser opass : Option String) (odb : String) (collection : Option String) : String :=
  let origin_host := HOST_TEMPLATE ohost (toString oport)
  let dump_path := pathJoin env.cwd ("dump_" ++ odb)
  let cmd := MONGODUMP_TEMPLATE origin_host (fmtOpt ouser) (fmtOpt opass) odb dump_path
  if truthy collection then cmd ++ " -c " ++ collection.getD "" else cmd

/-- The `mongorestore` command string assembled at lines 73–98 and (when a
collection is given) extended at line 102. -/
def restoreCommand (env : Env) (dhost : String) (dport : Nat)
    (duser dpass ddb : Option String) (odb : String) (collection : Option String) : String :=
  let destination_host := HOST_TEMPLATE dhost (toString dport)
  let dump_path := pathJoin env.cwd ("dump_" ++ odb)
  let cmd :=
    if truthy collection then
      MONGORESTORE_TEMPLATE destination_host (fmtOpt ddb) (fmtOpt duser) (fmtOpt dpass)
        dump_path (odb ++ "/" ++ collection.getD "" ++ ".bson")
    else
      MONGORESTORE_TEMPLATE destination_host (fmtOpt ddb) (fmtOpt duser) (fmtOpt dpass)
        dump_path odb
  if truthy collection then cmd ++ " -c " ++ collection.getD "" else cmd

/-- The stdout/process trace of a run that reaches line 104: the two command
echoes (lines 105–106), the first banner (line 108), the dump child launched
(line 111) and waited on until it exits (line 116), the second banner
(line 118), the restore child launched (line 121) and waited on (line 125),
and the final `"Done!"` (line 127). -/
def runEvents (env : Env) (dumpCmd restoreCmd : String) : List Event :=
  [ .print dumpCmd
  , .print restoreCmd
  , .print "** Importing from origin **"
  , .launch dumpCmd
  , .exited dumpCmd (env.spawnExit dumpCmd)
  , .print "** Exporting to destination **"
  , .launch restoreCmd
  , .exited restoreCmd (env.spawnExit restoreCmd)
  , .print "Done!" ]

/-- Shallow embedding of `main(origin, destination, collection=None)`
(lines 28–127): scheme check, URI parsing (origin first), dump-folder
derivation, dump-path collision check, single-host check, command assembly,
then the sequential dump/restore run.  An `Except.error` models the unhandled
exception unwinding before anything is printed or launched. -/
def main (env : Env) (origin destination : String) (collection : Option String) :
    Except MainError (List Event) :=
  if !(startswith origin "mongodb://" && startswith destination "mongodb://") then
    .error .invalidInput
  else
    match env.parse origin with
    | .invalidURI => .error .invalidURIError
    | .ok o =>
      match env.parse destination with
      | .invalidURI => .error .invalidURIError
      | .ok d =>
        match o.database with
        | none => .error .typeErrorDumpFolder
        | some odb =>
          let dump_folder := "dump_" ++ odb
          let dump_path := pathJoin env.cwd dump_folder
          if env.pathExists dump_path then
            .error (.pathCollision dump_path)
          else if o.nodelist.length ≠ 1 ∨ d.nodelist.length ≠ 1 then
            .error .unsupportedTopology
          else
            let onode := o.nodelist.getD 0 ("", 0)
            let dnode := d.nodelist.getD 0 ("", 0)
            .ok (runEvents env
              (dumpCommand env onode.1 onode.2 o.username o.password odb collection)
              (restoreCommand env dnode.1 dnode.2 d.username d.password d.database odb
                collection))

/-- A concrete parser environment used to instantiate the theorems below: the
decompositions `pymongo.uri_parser.parse_uri` produces on four sample
connection strings (single-host origin, single-host destination, a two-host
origin, and an origin with no database segment); every other string fails
with `InvalidURI`. -/
def sampleParse : String → ParseResult := fun s =>
  if s = "mongodb://u1:p1@a:27017/foo" then
    .ok ⟨[("a", 27017)], some "u1", some "p1", some "foo"⟩
  else if s = "mongodb://u2:p2@b:27017/bar" then
    .ok ⟨[("b", 27017)], some "u2", some "p2", some "bar"⟩
  else if s = "mongodb://u1:p1@a:27017,c:27018/foo" then
    .ok ⟨[("a", 27017), ("c", 27018)], some "u1", some "p1", some "foo"⟩
  else if s = "mongodb://u1:p1@a:27017/" then
    .ok ⟨[("a", 27017)], some "u1", some "p1", none⟩
  else .invalidURI

/-- A concrete environment: working directory `/work`, an empty filesystem,
and every child process exiting with status `1` (a failing tool). -/
def sampleEnv : Env :=
  { parse := sampleParse
    cwd := "/work"
    pathExists := fun _ => false
    spawnExit := fun _ => 1 }

/-- The sample environment with a filesystem on which every path (in
particular the computed dump path) already exists. -/
def collisionEnv : Env :=
  { sampleEnv with pathExists := fun _ => true }

/-- Distinguishes the child-process events (launch, exit) from the printed
lines of a trace. -/
def isProcEvent : Event → Bool
  | .print _ => false
  | .launch _ => true
  | .exited _ _ => true

/-- Helper: once both schemes check out, both URIs parse, the origin database
is present, the dump path is free and both node lists are singletons, `main`
reaches the run stage and returns the full event trace for the two assembled
commands. -/
theorem main_success (env : Env) (origin destination : String) (collection : Option String)
    (o d : ParsedURI) (ohost dhost : String) (oport dport : Nat) (odb : String)
    (hso : startswith origin "mongodb://" = true)
    (hsd : startswith destination "mongodb://" = true)
    (hpo : env.parse origin = .ok o)
    (hpd : env.parse destination = .ok d)
    (hdb : o.database = some odb)
    (hfree : env.pathExists (pathJoin env.cwd ("dump_" ++ odb)) = false)
    (hon : o.nodelist = [(ohost, oport)])
    (hdn : d.nodelist = [(dhost, dport)]) :
    main env origin destination collection =
      .ok (runEvents env
        (dumpCommand env ohost oport o.username o.password odb collection)
        (restoreCommand env dhost dport d.username d.password d.database odb collection)) := by
  simp [main, hso, hsd, hpo, hpd, hdb, hfree, hon, hdn]

/-- The dump folder name `"dump_" ++ db` never begins with a path separator,
so `os.path.join` always treats it as a relative component. -/
theorem dumpFolder_no_slash (s : String) : startswith ("dump_" ++ s) "/" = false := rfl

/-- For a non-empty working directory that does not already end in `/`,
joining the dump folder inserts exactly one separator. -/
theorem pathJoin_dump (cwd db : String) (h1 : cwd.data.isEmpty = false)
    (h2 : endswith cwd "/" = false) :
    pathJoin cwd ("dump_" ++ db) = cwd ++ "/" ++ ("dump_" ++ db) := by
  simp [pathJoin, dumpFolder_no_slash, h1, h2]

/-- C1: with origin fields `{host a, port 27017, user u1, pass p1, db foo}`,
destination fields `{host b, port 27017, user u2, pass p2, db bar}` and no
collection, the dump command is exactly
`mongodump -h a:27017 -u u1 -p p1 -d foo -o <cwd>/dump_foo/` and the restore
command is exactly
`mongorestore -h b:27017 -d bar -u u2 -p p2 <cwd>/dump_foo/foo`. -/
theorem dump_and_restore_commands_without_collection (env : Env)
    (origin destination : String)
    (hso : startswith origin "mongodb://" = true)
    (hsd : startswith destination "mongodb://" = true)
    (hpo : env.parse origin = .ok ⟨[("a", 27017)], some "u1", some "p1", some "foo"⟩)
    (hpd : env.parse destination = .ok ⟨[("b", 27017)], some "u2", some "p2", some "bar"⟩)
    (h1 : env.cwd.data.isEmpty = false)
    (h2 : endswith env.cwd "/" = false)
    (hfree : env.pathExists (env.cwd ++ "/dump_foo") = false) :
    main env origin destination none =
      .ok (runEvents env
        ("mongodump -h a:27017 -u u1 -p p1 -d foo -o " ++ env.cwd ++ "/dump_foo/")
        ("mongorestore -h b:27017 -d bar -u u2 -p p2 " ++ env.cwd ++ "/dump_foo/foo")) := by
  have hpath : pathJoin env.cwd ("dump_" ++ "foo") = env.cwd ++ "/dump_foo" := by
    rw [pathJoin_dump env.cwd "foo" h1 h2]
    simp [String.append_assoc]
  have hpath' : pathJoin env.cwd "dump_foo" = env.cwd ++ "/dump_foo" := by
    simpa using hpath
  have hfree' : env.pathExists (pathJoin env.cwd ("dump_" ++ "foo")) = false := by
    rw [hpath]; exact hfree
  rw [main_success env origin destination none _ _ "a" "b" 27017 27017 "foo"
    hso hsd hpo hpd rfl hfree' rfl rfl]
  have hd : dumpCommand env "a" 27017 (some "u1") (some "p1") "foo" none
      = "mongodump -h a:27017 -u u1 -p p1 -d foo -o " ++ env.cwd ++ "/dump_foo/" := by
    simp [dumpCommand, truthy, HOST_TEMPLATE, MONGODUMP_TEMPLATE, fmtOpt, hpath',
      show toString (27017 : Nat) = "27017" from rfl, String.append_assoc]
  have hr : restoreCommand env "b" 27017 (some "u2") (some "p2") (some "bar") "foo" none
      = "mongorestore -h b:27017 -d bar -u u2 -p p2 " ++ env.cwd ++ "/dump_foo/foo" := by
    simp [restoreCommand, truthy, HOST_TEMPLATE, MONGORESTORE_TEMPLATE, fmtOpt, hpath',
      show toString (27017 : Nat) = "27017" from rfl, String.append_assoc]
  rw [hd, hr]

/-- C1 witness: the theorem evaluated in the concrete sample environment. -/
theorem dump_and_restore_commands_without_collection_witness :
    main sampleEnv "mongodb://u1:p1@a:27017/foo" "mongodb://u2:p2@b:27017/bar" none =
      .ok (runEvents sampleEnv
        ("mongodump -h a:27017 -u u1 -p p1 -d foo -o " ++ sampleEnv.cwd ++ "/dump_foo/")
        ("mongorestore -h b:27017 -d bar -u u2 -p p2 " ++ sampleEnv.cwd ++ "/dump_foo/foo")) :=
  dump_and_restore_commands_without_collection sampleEnv _ _ (by decide) (by decide)
    (by decide) (by decide) (by decide) (by decide) (by decide)

/-- C2: with the same two URIs and collection `"users"`, both commands are the
no-collection commands with ` -c users` appended, except that the restore
source path becomes `<cwd>/dump_foo/foo/users.bson` instead of
`<cwd>/dump_foo/foo`. -/
theorem dump_and_restore_commands_with_collection (env : Env)
    (origin destination : String)
    (hso : startswith origin "mongodb://" = true)
    (hsd : startswith destination "mongodb://" = true)
    (hpo : env.parse origin = .ok ⟨[("a", 27017)], some "u1", some "p1", some "foo"⟩)
    (hpd : env.parse destination = .ok ⟨[("b", 27017)], some "u2", some "p2", some "bar"⟩)
    (h1 : env.cwd.data.isEmpty = false)
    (h2 : endswith env.cwd "/" = false)
    (hfree : env.pathExists (env.cwd ++ "/dump_foo") = false) :
    main env origin destination (some "users") =
      .ok (runEvents env
        (("mongodump -h a:27017 -u u1 -p p1 -d foo -o " ++ env.cwd ++ "/dump_foo/")
          ++ " -c users")
        (("mongorestore -h b:27017 -d bar -u u2 -p p2 " ++ env.cwd
          ++ "/dump_foo/foo/users.bson") ++ " -c users")) := by
  have hpath : pathJoin env.cwd ("dump_" ++ "foo") = env.cwd ++ "/dump_foo" := by
    rw [pathJoin_dump env.cwd "foo" h1 h2]
    simp [String.append_assoc]
  have hpath' : pathJoin env.cwd "dump_foo" = env.cwd ++ "/dump_foo" := by
    simpa using hpath
  have hfree' : env.pathExists (pathJoin env.cwd ("dump_" ++ "foo")) = false := by
    rw [hpath]; exact hfree
  rw [main_success env origin destination (some "users") _ _ "a" "b" 27017 27017 "foo"
    hso hsd hpo hpd rfl hfree' rfl rfl]
  have hd : dumpCommand env "a" 27017 (some "u1") (some "p1") "foo" (some "users")
      = ("mongodump -h a:27017 -u u1 -p p1 -d foo -o " ++ env.cwd ++ "/dump_foo/")
          ++ " -c users" := by
    simp [dumpCommand, truthy, HOST_TEMPLATE, MONGODUMP_TEMPLATE, fmtOpt, hpath',
      show toString (27017 : Nat) = "27017" from rfl,
      show "users".isEmpty = false from rfl, String.append_assoc]
  have hr : restoreCommand env "b" 27017 (some "u2") (some "p2") (some "bar") "foo"
        (some "users")
      = ("mongorestore -h b:27017 -d bar -u u2 -p p2 " ++ env.cwd
          ++ "/dump_foo/foo/users.bson") ++ " -c users" := by
    simp [restoreCommand, truthy, HOST_TEMPLATE, MONGORESTORE_TEMPLATE, fmtOpt, hpath',
      show toString (27017 : Nat) = "27017" from rfl,
      show "users".isEmpty = false from rfl, String.append_assoc]
  rw [hd, hr]

/-- C2 witness: the theorem evaluated in the concrete sample environment. -/
theorem dump_and_restore_commands_with_collection_witness :
    main sampleEnv "mongodb://u1:p1@a:27017/foo" "mongodb://u2:p2@b:27017/bar"
        (some "users") =
      .ok (runEvents sampleEnv
        (("mongodump -h a:27017 -u u1 -p p1 -d foo -o " ++ sampleEnv.cwd ++ "/dump_foo/")
          ++ " -c users")
        (("mongorestore -h b:27017 -d bar -u u2 -p p2 " ++ sampleEnv.cwd
          ++ "/dump_foo/foo/users.bson") ++ " -c users")) :=
  dump_and_restore_commands_with_collection sampleEnv _ _ (by decide) (by decide)
    (by decide) (by decide) (by decide) (by decide) (by decide)

/-- C3: whenever every validation check passes, the run prints both generated
commands, both stage banners and the fixed final `"Done!"`, and returns
successfully (exit status zero) — for every assignment of exit statuses to the
launched dump and restore children, i.e. neither child's exit status is
inspected or causes a distinct error. -/
theorem success_ignores_child_exit_status (env : Env)
    (origin destination : String) (collection : Option String)
    (o d : ParsedURI) (ohost dhost : String) (oport dport : Nat) (odb : String)
    (hso : startswith origin "mongodb://" = true)
    (hsd : startswith destination "mongodb://" = true)
    (hpo : env.parse origin = .ok o)
    (hpd : env.parse destination = .ok d)
    (hdb : o.database = some odb)
    (hfree : env.pathExists (pathJoin env.cwd ("dump_" ++ odb)) = false)
    (hon : o.nodelist = [(ohost, oport)])
    (hdn : d.nodelist = [(dhost, dport)]) :
    ∀ exitCode : String → Int,
      ∃ evs : List Event,
        main { env with spawnExit := exitCode } origin destination collection = .ok evs ∧
        Event.print (dumpCommand env ohost oport o.username o.password odb collection)
          ∈ evs ∧
        Event.print (restoreCommand env dhost dport d.username d.password d.database odb
          collection) ∈ evs ∧
        Event.print "** Importing from origin **" ∈ evs ∧
        Event.print "** Exporting to destination **" ∈ evs ∧
        Event.print "Done!" ∈ evs := by
  intro exitCode
  refine ⟨_, main_success { env with spawnExit := exitCode } origin destination collection
    o d ohost dhost oport dport odb hso hsd hpo hpd hdb hfree hon hdn, ?_⟩
  simp [runEvents, dumpCommand, restoreCommand]

/-- C3 witness: in the sample environment, with both children exiting with the
non-zero status `2`, the run still succeeds and prints everything. -/
theorem success_ignores_child_exit_status_witness :
    ∃ evs : List Event,
      main { sampleEnv with spawnExit := fun _ => 2 } "mongodb://u1:p1@a:27017/foo"
        "mongodb://u2:p2@b:27017/bar" none = .ok evs ∧
      Event.print (dumpCommand sampleEnv "a" 27017 (some "u1") (some "p1") "foo" none)
        ∈ evs ∧
      Event.print (restoreCommand sampleEnv "b" 27017 (some "u2") (some "p2") (some "bar")
        "foo" none) ∈ evs ∧
      Event.print "** Importing from origin **" ∈ evs ∧
      Event.print "** Exporting to destination **" ∈ evs ∧
      Event.print "Done!" ∈ evs :=
  success_ignores_child_exit_status sampleEnv "mongodb://u1:p1@a:27017/foo"
    "mongodb://u2:p2@b:27017/bar" none
    ⟨[("a", 27017)], some "u1", some "p1", some "foo"⟩
    ⟨[("b", 27017)], some "u2", some "p2", some "bar"⟩ "a" "b" 27017 27017 "foo"
    (by decide) (by decide) (by decide) (by decide) (by decide) (by decide)
    (by decide) (by decide) (fun _ => 2)

/-- C4: in every run that reaches the execution stage, the child-process
events are exactly dump-launch, dump-exit, restore-launch, restore-exit, in
that order: the restore child is launched only after the dump child has been
waited on and has terminated, with no overlap. -/
theorem restore_launched_after_dump_exits (env : Env)
    (origin destination : String) (collection : Option String)
    (o d : ParsedURI) (ohost dhost : String) (oport dport : Nat) (odb : String)
    (hso : startswith origin "mongodb://" = true)
    (hsd : startswith destination "mongodb://" = true)
    (hpo : env.parse origin = .ok o)
    (hpd : env.parse destination = .ok d)
    (hdb : o.database = some odb)
    (hfree : env.pathExists (pathJoin env.cwd ("dump_" ++ odb)) = false)
    (hon : o.nodelist = [(ohost, oport)])
    (hdn : d.nodelist = [(dhost, dport)]) :
    ∃ evs : List Event,
      main env origin destination collection = .ok evs ∧
      evs.filter isProcEvent =
        [ Event.launch (dumpCommand env ohost oport o.username o.password odb collection)
        , Event.exited (dumpCommand env ohost oport o.username o.password odb collection)
            (env.spawnExit (dumpCommand env ohost oport o.username o.password odb
              collection))
        , Event.launch (restoreCommand env dhost dport d.username d.password d.database
            odb collection)
        , Event.exited (restoreCommand env dhost dport d.username d.password d.database
            odb collection)
            (env.spawnExit (restoreCommand env dhost dport d.username d.password
              d.database odb collection)) ] := by
  refine ⟨_, main_success env origin destination collection o d ohost dhost oport dport
    odb hso hsd hpo hpd hdb hfree hon hdn, ?_⟩
  simp [runEvents, isProcEvent]

/-- C4 witness: the strict dump-then-restore ordering in the sample
environment. -/
theorem restore_launched_after_dump_exits_witness :
    ∃ evs : List Event,
      main sampleEnv "mongodb://u1:p1@a:27017/foo" "mongodb://u2:p2@b:27017/bar" none
        = .ok evs ∧
      evs.filter isProcEvent =
        [ Event.launch (dumpCommand sampleEnv "a" 27017 (some "u1") (some "p1") "foo" none)
        , Event.exited (dumpCommand sampleEnv "a" 27017 (some "u1") (some "p1") "foo" none)
            (sampleEnv.spawnExit (dumpCommand sampleEnv "a" 27017 (some "u1") (some "p1")
              "foo" none))
        , Event.launch (restoreCommand sampleEnv "b" 27017 (some "u2") (some "p2")
            (some "bar") "foo" none)
        , Event.exited (restoreCommand sampleEnv "b" 27017 (some "u2") (some "p2")
            (some "bar") "foo" none)
            (sampleEnv.spawnExit (restoreCommand sampleEnv "b" 27017 (some "u2")
              (some "p2") (some "bar") "foo" none)) ] :=
  restore_launched_after_dump_exits sampleEnv "mongodb://u1:p1@a:27017/foo"
    "mongodb://u2:p2@b:27017/bar" none
    ⟨[("a", 27017)], some "u1", some "p1", some "foo"⟩
    ⟨[("b", 27017)], some "u2", some "p2", some "bar"⟩ "a" "b" 27017 27017 "foo"
    (by decide) (by decide) (by decide) (by decide) (by decide) (by decide)
    (by decide) (by decide)

/-- Passing the empty string as the collection takes exactly the same branches
as passing no collection at all: `if collection:` is false for both. -/
theorem main_empty_collection (env : Env) (origin destination : String) :
    main env origin destination (some "") = main env origin destination none := rfl

/-- C9: calling the entry point with the empty string as the collection
produces exactly the same outcome — in particular the same two command
strings — as calling it with the collection unset: no ` -c` flag is appended
to either command, and the restore reads from `<dump path>/<origin db>`
(the whole database is transferred). -/
theorem empty_collection_same_as_unset (env : Env)
    (origin destination : String)
    (o d : ParsedURI) (ohost dhost : String) (oport dport : Nat) (odb : String)
    (hso : startswith origin "mongodb://" = true)
    (hsd : startswith destination "mongodb://" = true)
    (hpo : env.parse origin = .ok o)
    (hpd : env.parse destination = .ok d)
    (hdb : o.database = some odb)
    (hfree : env.pathExists (pathJoin env.cwd ("dump_" ++ odb)) = false)
    (hon : o.nodelist = [(ohost, oport)])
    (hdn : d.nodelist = [(dhost, dport)]) :
    main env origin destination (some "") = main env origin destination none ∧
    main env origin destination (some "") =
      .ok (runEvents env
        (MONGODUMP_TEMPLATE (HOST_TEMPLATE ohost (toString oport)) (fmtOpt o.username)
          (fmtOpt o.password) odb (pathJoin env.cwd ("dump_" ++ odb)))
        (MONGORESTORE_TEMPLATE (HOST_TEMPLATE dhost (toString dport)) (fmtOpt d.database)
          (fmtOpt d.username) (fmtOpt d.password) (pathJoin env.cwd ("dump_" ++ odb))
          odb)) := by
  refine ⟨main_empty_collection env origin destination, ?_⟩
  rw [main_empty_collection env origin destination]
  rw [main_success env origin destination none o d ohost dhost oport dport odb
    hso hsd hpo hpd hdb hfree hon hdn]
  simp [dumpCommand, restoreCommand, truthy]

/-- C9 witness: empty collection and unset collection coincide in the sample
environment and yield the plain whole-database commands. -/
theorem empty_collection_same_as_unset_witness :
    main sampleEnv "mongodb://u1:p1@a:27017/foo" "mongodb://u2:p2@b:27017/bar" (some "")
      = main sampleEnv "mongodb://u1:p1@a:27017/foo" "mongodb://u2:p2@b:27017/bar" none ∧
    main sampleEnv "mongodb://u1:p1@a:27017/foo" "mongodb://u2:p2@b:27017/bar" (some "")
      = .ok (runEvents sampleEnv
          (MONGODUMP_TEMPLATE (HOST_TEMPLATE "a" (toString (27017 : Nat)))
            (fmtOpt (some "u1")) (fmtOpt (some "p1")) "foo"
            (pathJoin sampleEnv.cwd ("dump_" ++ "foo")))
          (MONGORESTORE_TEMPLATE (HOST_TEMPLATE "b" (toString (27017 : Nat)))
            (fmtOpt (some "bar")) (fmtOpt (some "u2")) (fmtOpt (some "p2"))
            (pathJoin sampleEnv.cwd ("dump_" ++ "foo")) "foo")) :=
  empty_collection_same_as_unset sampleEnv "mongodb://u1:p1@a:27017/foo"
    "mongodb://u2:p2@b:27017/bar"
    ⟨[("a", 27017)], some "u1", some "p1", some "foo"⟩
    ⟨[("b", 27017)], some "u2", some "p2", some "bar"⟩ "a" "b" 27017 27017 "foo"
    (by decide) (by decide) (by decide) (by decide) (by decide) (by decide)
    (by decide) (by decide)

/-- C7: any origin or destination string that does not start with
`mongodb://` is rejected with the invalid-input error, whatever the parser,
filesystem or collection argument — so before any parsing, path check,
command construction or process launch. -/
theorem bad_scheme_rejected (origin destination : String)
    (h : startswith origin "mongodb://" = false ∨
      startswith destination "mongodb://" = false) :
    ∀ (env : Env) (collection : Option String),
      main env origin destination collection = .error .invalidInput := by
  intro env collection
  rcases h with h | h <;> simp [main, h]

/-- C7 witness: an origin with an `http` scheme is rejected. -/
theorem bad_scheme_rejected_witness :
    main sampleEnv "http://u1:p1@a:27017/foo" "mongodb://u2:p2@b:27017/bar" none
      = .error .invalidInput :=
  bad_scheme_rejected "http://u1:p1@a:27017/foo" "mongodb://u2:p2@b:27017/bar"
    (Or.inl (by decide)) sampleEnv none

/-- C8: a string with the right scheme whose body the parser cannot decompose
(the parser raises `InvalidURI`) makes the run fail with the invalid-URI
error, for origin and destination alike, whatever the collection argument —
before any command is built or process launched. -/
theorem malformed_uri_rejected (env : Env) (origin destination : String)
    (hso : startswith origin "mongodb://" = true)
    (hsd : startswith destination "mongodb://" = true)
    (h : env.parse origin = .invalidURI ∨ env.parse destination = .invalidURI) :
    ∀ collection : Option String,
      main env origin destination collection = .error .invalidURIError := by
  intro collection
  rcases h with h | h
  · simp [main, hso, hsd, h]
  · cases hp : env.parse origin with
    | invalidURI => simp [main, hso, hsd, hp]
    | ok o => simp [main, hso, hsd, hp, h]

/-- C8 witness: a right-scheme, malformed-body origin string is rejected. -/
theorem malformed_uri_rejected_witness :
    main sampleEnv "mongodb://not a well formed body" "mongodb://u2:p2@b:27017/bar" none
      = .error .invalidURIError :=
  malformed_uri_rejected sampleEnv "mongodb://not a well formed body"
    "mongodb://u2:p2@b:27017/bar" (by decide) (by decide) (Or.inl (by decide)) none

/-- C10: when the origin URI parses but carries no database name, `main` fails
at the dump-folder derivation with the `TypeError` of
`"dump_" + origin['database']` — an error distinct from all four specified
error kinds — before anything is printed or launched. -/
theorem missing_database_type_error (env : Env) (origin destination : String)
    (o d : ParsedURI)
    (hso : startswith origin "mongodb://" = true)
    (hsd : startswith destination "mongodb://" = true)
    (hpo : env.parse origin = .ok o)
    (hpd : env.parse destination = .ok d)
    (hdb : o.database = none) :
    ∀ collection : Option String,
      main env origin destination collection = .error .typeErrorDumpFolder ∧
      MainError.typeErrorDumpFolder ≠ .invalidInput ∧
      MainError.typeErrorDumpFolder ≠ .invalidURIError ∧
      MainError.typeErrorDumpFolder ≠ .unsupportedTopology ∧
      ∀ p : String, MainError.typeErrorDumpFolder ≠ .pathCollision p := by
  intro collection
  exact ⟨by simp [main, hso, hsd, hpo, hpd, hdb], by simp, by simp, by simp,
    fun p => by simp⟩

/-- C10 witness: an origin URI whose path segment is empty. -/
theorem missing_database_type_error_witness :
    main sampleEnv "mongodb://u1:p1@a:27017/" "mongodb://u2:p2@b:27017/bar" none
      = .error .typeErrorDumpFolder ∧
    MainError.typeErrorDumpFolder ≠ .invalidInput ∧
    MainError.typeErrorDumpFolder ≠ .invalidURIError ∧
    MainError.typeErrorDumpFolder ≠ .unsupportedTopology ∧
    ∀ p : String, MainError.typeErrorDumpFolder ≠ .pathCollision p :=
  missing_database_type_error sampleEnv "mongodb://u1:p1@a:27017/"
    "mongodb://u2:p2@b:27017/bar"
    ⟨[("a", 27017)], some "u1", some "p1", none⟩
    ⟨[("b", 27017)], some "u2", some "p2", some "bar"⟩
    (by decide) (by decide) (by decide) (by decide) (by decide) none

/-- C6: the dump path is `<cwd>/dump_<db>`, derived from the origin database
alone — the statement holds for an arbitrary parsed destination and
collection — and when that path already exists the run aborts with the
path-collision error naming it, so before any command is built or any child
process launched. -/
theorem existing_dump_path_aborts (env : Env) (origin destination : String)
    (o d : ParsedURI) (odb : String)
    (hso : startswith origin "mongodb://" = true)
    (hsd : startswith destination "mongodb://" = true)
    (hpo : env.parse origin = .ok o)
    (hpd : env.parse destination = .ok d)
    (hdb : o.database = some odb)
    (h1 : env.cwd.data.isEmpty = false)
    (h2 : endswith env.cwd "/" = false)
    (hex : env.pathExists (env.cwd ++ "/dump_" ++ odb) = true) :
    ∀ collection : Option String,
      main env origin destination collection
        = .error (.pathCollision (env.cwd ++ "/dump_" ++ odb)) := by
  intro collection
  have hpath : pathJoin env.cwd ("dump_" ++ odb) = env.cwd ++ "/dump_" ++ odb := by
    rw [pathJoin_dump env.cwd odb h1 h2]
    apply String.ext
    simp [String.data_append]
  simp [main, hso, hsd, hpo, hpd, hdb, hpath, hex]

/-- C6 witness: in the collision environment the run aborts with the
path-collision error at `/work/dump_foo`. -/
theorem existing_dump_path_aborts_witness :
    main collisionEnv "mongodb://u1:p1@a:27017/foo" "mongodb://u2:p2@b:27017/bar" none
      = .error (.pathCollision (collisionEnv.cwd ++ "/dump_" ++ "foo")) :=
  existing_dump_path_aborts collisionEnv "mongodb://u1:p1@a:27017/foo"
    "mongodb://u2:p2@b:27017/bar"
    ⟨[("a", 27017)], some "u1", some "p1", some "foo"⟩
    ⟨[("b", 27017)], some "u2", some "p2", some "bar"⟩ "foo"
    (by decide) (by decide) (by decide) (by decide) (by decide) (by decide)
    (by decide) (by decide) none

/-- C5 counterexample: with a two-host origin URI and an already-existing dump
path, the program raises the path-collision error, not the topology error —
so the multi-host rejection does not happen before the dump-path collision
check, contrary to the claimed state order. -/
theorem multi_host_check_order_cex :
    main collisionEnv "mongodb://u1:p1@a:27017,c:27018/foo" "mongodb://u2:p2@b:27017/bar"
        none = .error (.pathCollision "/work/dump_foo") ∧
    main collisionEnv "mongodb://u1:p1@a:27017,c:27018/foo" "mongodb://u2:p2@b:27017/bar"
        none ≠ .error .unsupportedTopology := by
  exact ⟨by decide, by decide⟩

/-- C5 amended: with correct schemes, parseable URIs, the origin database
present and a free dump path, a node list of length other than one in either
URI makes the run fail with the unsupported-topology error; the rejection
happens after the dump-path derivation and collision check, but still before
any command is built or any external process is started. -/
theorem multi_host_rejected_after_path_check (env : Env)
    (origin destination : String) (o d : ParsedURI) (odb : String)
    (hso : startswith origin "mongodb://" = true)
    (hsd : startswith destination "mongodb://" = true)
    (hpo : env.parse origin = .ok o)
    (hpd : env.parse destination = .ok d)
    (hdb : o.database = some odb)
    (hfree : env.pathExists (pathJoin env.cwd ("dump_" ++ odb)) = false)
    (hmulti : o.nodelist.length ≠ 1 ∨ d.nodelist.length ≠ 1) :
    ∀ collection : Option String,
      main env origin destination collection = .error .unsupportedTopology := by
  intro collection
  simp [main, hso, hsd, hpo, hpd, hdb, hfree, hmulti]

/-- C5 amended witness: a two-host origin URI with a free dump path is
rejected with the topology error. -/
theorem multi_host_rejected_after_path_check_witness :
    main sampleEnv "mongodb://u1:p1@a:27017,c:27018/foo" "mongodb://u2:p2@b:27017/bar"
        none = .error .unsupportedTopology :=
  multi_host_rejected_after_path_check sampleEnv "mongodb://u1:p1@a:27017,c:27018/foo"
    "mongodb://u2:p2@b:27017/bar"
    ⟨[("a", 27017), ("c", 27018)], some "u1", some "p1", some "foo"⟩
    ⟨[("b", 27017)], some "u2", some "p2", some "bar"⟩ "foo"
    (by decide) (by decide) (by decide) (by decide) (by decide) (by decide)
    (Or.inl (by decide)) none

end Mongotransf
